import Mathlib

/-!
Verification development for the `flame_run.py` driver
(illinois-ceesd/drivers_flame1d, `src/experiments/parsl/local_execution/flame_run.py`).

The driver's own control logic is shallowly embedded here:

* the truthiness-gated YAML configuration block of `run_flame` (lines 131-148),
* the restart-snapshot loading and rank-count assertion (lines 271-291),
* the `my_rhs` non-finite detector and emergency-checkpoint branch
  (lines 321-338), including the fact that the names `s0_sc` and `kappa_sc`
  referenced at line 333 are bound nowhere in the file,
* the `my_checkpoint` restart-write gate and record payload (lines 340-353),
* the post-loop epilogue: unconditional final checkpoint followed by the
  abnormal-termination check (lines 376-389),
* the `__main__` command-line handling: `type=ascii` argument conversion,
  apostrophe stripping, and restart-file-name parsing (lines 392-446).

External collaborators (mirgecom, grudge, cantera, MPI, the filesystem) are
modelled as oracle inputs; numeric field values are carried as rationals and
array states as lists of possibly-non-finite values.
-/

set_option linter.unusedVariables false

/-- Kinds of Python exceptions that the embedded control flow can raise. -/
inductive PyError
  | nameError (n : String)
  | assertionError
  | valueError (msg : String)
  | fileNotFound (path : String)
  | keyError (k : String)
  | indexError
  deriving DecidableEq

/-- A single entry of the flattened solution array: a finite rational value or
one of the IEEE non-finite values (`nan`, `inf`, `-inf`) that the driver's
non-finite detector looks for. -/
inductive FVal
  | finite (q : ℚ)
  | nan
  | posinf
  | neginf
  deriving DecidableEq

/-- Whether an array entry is finite, as `np.isfinite` classifies it. -/
def FVal.isFinite : FVal → Bool
  | .finite _ => true
  | _ => false

/-- The flattened conserved-state array carried between steps. -/
def StateV := List FVal

instance : DecidableEq StateV := inferInstanceAs (DecidableEq (List FVal))

/-- Whether the state contains at least one non-finite entry.  This models
`not np.isfinite(discr.norm(state, np.inf))` at line 323: the infinity norm of
the state is non-finite exactly when some entry is non-finite. -/
def stateNonfinite (s : StateV) : Bool := s.any (fun v => ! v.isFinite)

/-- Contents of one per-rank restart snapshot file, the pickled mapping with
keys `local_mesh`, `state`, `t`, `step`, `global_nelements`, `num_parts`
(spec section 6; written at lines 346-353).  The mesh itself is opaque and is
represented by an identifier together with its `nelements` attribute. -/
structure SnapshotData where
  local_mesh : Nat
  local_mesh_nelements : Nat
  state : StateV
  t : ℚ
  step : Nat
  global_nelements : Nat
  num_parts : Nat
  deriving DecidableEq

/-- The run context reconstructed by the restart-processing block of
`run_flame` (lines 271-291): mesh handles, the restored time, the restored
step index, and the unflattened state. -/
structure LoadedCtx where
  local_mesh : Nat
  local_nelements : Nat
  global_nelements : Nat
  t : ℚ
  step : Nat
  state : StateV
  deriving DecidableEq

/-- The restart-processing block of `run_flame` (lines 271-291): read the
snapshot fields, assert that the MPI world size equals the persisted
`num_parts` (line 277), then set `current_t` from the persisted `t` and
`current_step` from the file-name-derived `restart_step` (lines 286-291). -/
def processRestart (worldSize restart_step : Nat) (snap : SnapshotData) :
    Except PyError LoadedCtx :=
  if worldSize = snap.num_parts then
    .ok { local_mesh := snap.local_mesh
          local_nelements := snap.local_mesh_nelements
          global_nelements := snap.global_nelements
          t := snap.t
          step := restart_step
          state := snap.state }
  else .error .assertionError

/-- The record pickled by `my_checkpoint` at lines 346-353. -/
structure RestartRecord where
  local_mesh : Nat
  state : StateV
  t : ℚ
  step : Nat
  global_nelements : Nat
  num_parts : Nat
  deriving DecidableEq

/-- Modelled from the spec: `check_step` is imported from the external library
`mirgecom.simutil` (line 57) and is not part of this repository.  The spec
states the restart cadence it induces: a write is "triggered every N steps",
i.e. `check_step(step, interval)` holds exactly when `step` is divisible by
`interval`. -/
def check_step (step interval : Int) : Bool := step % interval == 0

/-- The enclosing-scope values that `my_checkpoint` closes over: case name,
rank, the configured `nrestart`, the restart step, and the mesh metadata. -/
structure CheckpointCtx where
  casename : String
  rank : Nat
  nrestart : Int
  restart_step : Nat
  local_mesh : Nat
  global_nelements : Nat
  nparts : Nat
  deriving DecidableEq

/-- The restart-write gate of `my_checkpoint` (lines 342-343):
`check_step(step, nrestart) if step != restart_step else False`. -/
def writeRestartGate (restart_step : Nat) (nrestart : Int) (step : Nat) : Bool :=
  if step ≠ restart_step then check_step (step : Int) nrestart else false

/-- The restart-write half of `my_checkpoint` (lines 340-353): when the gate
passes, the pickled record is produced (the `some` case models the
`pickle.dump` at lines 346-353); otherwise no restart file is written.  The
visualization half delegates to the external `sim_checkpoint` and carries no
repository logic. -/
def my_checkpoint (c : CheckpointCtx) (step : Nat) (t dt : ℚ) (state : StateV) :
    Option RestartRecord :=
  if writeRestartGate c.restart_step c.nrestart step then
    some { local_mesh := c.local_mesh
           state := state
           t := t
           step := step
           global_nelements := c.global_nelements
           num_parts := c.nparts }
  else none

/-- A parsed YAML document, as the driver uses it: a flat mapping from keys to
scalar values. -/
def YamlDoc := List (String × ℚ)

/-- Dictionary lookup `input_data[key]`, `none` when the key is absent
(Python raises `KeyError`). -/
def yamlGet (d : YamlDoc) (k : String) : Option ℚ :=
  (d.find? (fun p => p.1 == k)).map (fun p => p.2)

/-- Python `int()` applied to a scalar: truncation toward zero. -/
def pyInt (q : ℚ) : Int := Int.tdiv q.num (q.den : Int)

/-- The four scalar run parameters the configuration block resolves. -/
structure RunParams where
  nviz : Int
  nrestart : Int
  current_dt : ℚ
  t_final : ℚ
  deriving DecidableEq

/-- The hardcoded defaults of `run_flame` (lines 123-128):
`nviz = 5`, `nrestart = 5`, `current_dt = 5.0e-8`, `t_final = 2.5e-7`. -/
def defaultParams : RunParams :=
  { nviz := 5, nrestart := 5, current_dt := 1 / 20000000, t_final := 1 / 4000000 }

/-- The configuration block of `run_flame` (lines 123-141).  When
`user_input_file` is truthy the code opens the supplied file (line 133; its
parse result is discarded), then opens the hardcoded path
`run2_params.yaml` (lines 135-136) and takes all four parameters from that
document; otherwise the hardcoded defaults stand.  `fs` maps a path to the
parsed document of the file stored there, `none` when the file is missing. -/
def configParams (user_input_file : String) (fs : String → Option YamlDoc) :
    Except PyError RunParams :=
  if user_input_file = "" then .ok defaultParams
  else
    match fs user_input_file with
    | none => .error (.fileNotFound user_input_file)
    | some _ =>
      match fs "run2_params.yaml" with
      | none => .error (.fileNotFound "run2_params.yaml")
      | some d =>
        match yamlGet d "nviz" with
        | none => .error (.keyError "nviz")
        | some v1 =>
          match yamlGet d "nrestart" with
          | none => .error (.keyError "nrestart")
          | some v2 =>
            match yamlGet d "current_dt" with
            | none => .error (.keyError "current_dt")
            | some v3 =>
              match yamlGet d "t_final" with
              | none => .error (.keyError "t_final")
              | some v4 =>
                .ok { nviz := pyInt v1, nrestart := pyInt v2,
                      current_dt := v3, t_final := v4 }

/-- Observable actions of the driver, in the order they occur. -/
inductive Event
  | logInfo (msg : String)
  | openSnapshot (name : String) (step rank : Nat)
  | makeDiscretization
  | enterStepLoop
  | checkpointCall (step : Nat) (t : ℚ) (state : StateV)
  | writeRestartFile (casename : String) (step rank : Nat) (rec : RestartRecord)
  | emergencyCheckpoint (step : Nat) (t : ℚ)
  | exitCall
  deriving DecidableEq

/-- Names that are bound in the scope enclosing `my_rhs` and are referenced by
its emergency branch (lines 321-334).  The keyword arguments of the
`sim_checkpoint` call at lines 328-333 additionally reference `s0_sc` and
`kappa_sc`, which are bound nowhere in `flame_run.py`; they are therefore
absent from this list. -/
def rhsScope : List String :=
  ["np", "discr", "rank", "logging", "sim_checkpoint", "visualizer", "eos",
   "casename", "current_dt", "exittol", "constant_cfl", "comm", "vis_timer",
   "split_conserved", "dim", "ns_operator", "boundaries"]

/-- Whether a name resolves in the scope of `my_rhs`. -/
def scopeHas (n : String) : Bool := rhsScope.contains n

/-- The `my_rhs` callback (lines 321-338).  If the state contains a
non-finite value the code logs, then evaluates the
`sim_checkpoint(..., s0=s0_sc, kappa=kappa_sc)` call of lines 328-333:
Python resolves the keyword-argument names left to right before the call, so
an unbound `s0_sc` (and then `kappa_sc`) raises `NameError` first; only if
both resolved would the emergency checkpoint at step marker 999999999 be
written and `exit()` raised.  On a finite state the derivative produced by
the external Navier-Stokes operator plus species source terms is returned;
that external value is supplied as the oracle argument `nsOut`. -/
def my_rhs (rank : Nat) (t : ℚ) (state : StateV) (nsOut : StateV) :
    List Event × Except PyError StateV :=
  if stateNonfinite state then
    let logEvts := if rank = 0 then
      [Event.logInfo "Non-finite values detected in simulation, exiting..."] else []
    if scopeHas "s0_sc" = false then (logEvts, .error (.nameError "s0_sc"))
    else if scopeHas "kappa_sc" = false then (logEvts, .error (.nameError "kappa_sc"))
    else (logEvts ++ [Event.emergencyCheckpoint 999999999 t, Event.exitCall],
          .error (.valueError "SystemExit"))
  else ([], .ok nsOut)

/-- The post-loop epilogue of `run_flame` (lines 376-389): one unconditional
call of `my_checkpoint` with the final step, time and state (the final `dt`
argument is `current_t - checkpoint_t`), then
`raise ValueError("Simulation exited abnormally")` when
`current_t - t_final < 0`, else a normal `exit()`. -/
def epilogue (c : CheckpointCtx) (fstep : Nat) (ft t_final checkpoint_t : ℚ)
    (fstate : StateV) : List Event × Except PyError Unit :=
  let rcd := my_checkpoint c fstep ft (ft - checkpoint_t) fstate
  let evts := Event.checkpointCall fstep ft fstate ::
    (match rcd with
     | some r => [Event.writeRestartFile c.casename fstep c.rank r]
     | none => [])
  if ft - t_final < 0 then (evts, .error (.valueError "Simulation exited abnormally"))
  else (evts ++ [Event.exitCall], .ok ())

/-- The arguments `run_flame` receives from `__main__`, plus the MPI rank and
world size obtained from the communicator (lines 98-102). -/
structure RunInputs where
  casename : String
  user_input_file : String
  restart_step : Option Nat
  restart_name : Option String
  rank : Nat
  worldSize : Nat

/-- Oracles for the external collaborators: the filesystem holding YAML
config documents, the per-rank snapshot file contents (`none` when the file
is missing), and the result `(step, t, state)` of the external
`advance_state` stepping loop. -/
structure Externals where
  fs : String → Option YamlDoc
  snapshot : Option SnapshotData
  advance : RunParams → LoadedCtx → Nat × ℚ × StateV

/-- The control skeleton of `run_flame` (lines 93-389) with external
collaborators as oracles.  In source order: the `restart_step is None` early
exit (lines 104-107, logging only on rank 0), the `restart_name` default
(lines 109-110), the configuration block (lines 123-141), opening the
snapshot and asserting the rank count (lines 271-277), building the
discretization (lines 279-283), restoring time/step/state (lines 286-291),
the stepping loop (lines 369-374), and the epilogue (lines 376-389, with
`checkpoint_t` still holding its line-158 value `0`). -/
def run_flame (inp : RunInputs) (ext : Externals) : List Event × Except PyError Unit :=
  match inp.restart_step with
  | none =>
    ((if inp.rank = 0 then
        [Event.logInfo "Driver only supports restart, not initialization"]
      else []) ++ [Event.exitCall], .ok ())
  | some rs =>
    let rname := inp.restart_name.getD inp.casename
    match configParams inp.user_input_file ext.fs with
    | .error e => ([], .error e)
    | .ok params =>
      match ext.snapshot with
      | none => ([Event.openSnapshot rname rs inp.rank], .error (.fileNotFound rname))
      | some snap =>
        match processRestart inp.worldSize rs snap with
        | .error e => ([Event.openSnapshot rname rs inp.rank], .error e)
        | .ok ctx =>
          let c : CheckpointCtx :=
            { casename := inp.casename, rank := inp.rank,
              nrestart := params.nrestart, restart_step := rs,
              local_mesh := ctx.local_mesh,
              global_nelements := ctx.global_nelements,
              nparts := inp.worldSize }
          let r := ext.advance params ctx
          let epi := epilogue c r.1 r.2.1 params.t_final 0 r.2.2
          (Event.openSnapshot rname rs inp.rank :: Event.makeDiscretization ::
            Event.enterStepLoop :: epi.1, epi.2)

/-- Python `str.replace("'", "")`: every apostrophe is removed, from any
position.  Strings on the CLI path are carried as character lists. -/
def pyReplaceApos (l : List Char) : List Char := l.filter (fun c => c != '\'')

/-- The escaping Python `repr`/`ascii` performs inside a single-quoted
rendering: each apostrophe becomes backslash-apostrophe.  (Restricted to the
printable-ASCII, backslash-free inputs arising here.) -/
def pyEscapeApos (l : List Char) : List Char :=
  l.flatMap (fun c => if c = '\'' then ['\\', '\''] else [c])

/-- Python `ascii()` applied to a printable-ASCII, backslash-free string, as
the `type=ascii` converter of the argument parser does (lines 402-410): the
result is the `repr` of the string, which is double-quoted verbatim when the
string contains an apostrophe but no double quote, and otherwise
single-quoted with apostrophes escaped. -/
def pyAsciiQuote (l : List Char) : List Char :=
  if '\'' ∈ l ∧ '"' ∉ l then '"' :: l ++ ['"']
  else '\'' :: pyEscapeApos l ++ ['\'']

/-- The file-name half of Python `os.path.split` (line 429): everything after
the last slash. -/
def pyBasename : List Char → List Char
  | [] => []
  | c :: cs =>
    if c = '/' then pyBasename cs
    else if '/' ∈ cs then pyBasename cs
    else c :: cs

/-- Python `str.split(sep)` for a one-character separator (lines 430-431). -/
def pySplit (sep : Char) : List Char → List (List Char)
  | [] => [[]]
  | c :: cs =>
    if c = sep then [] :: pySplit sep cs
    else
      match pySplit sep cs with
      | [] => [[c]]
      | f :: rest => (c :: f) :: rest

/-- Value of a decimal digit string. -/
def decVal (l : List Char) : Nat := l.foldl (fun a c => 10 * a + (c.toNat - 48)) 0

/-- Python `int()` applied to a string (line 430), restricted to the
unsigned decimal literals arising here; any other input raises
`ValueError`. -/
def pyIntParse (l : List Char) : Except PyError Int :=
  if l ≠ [] ∧ l.all (fun c => c.isDigit) then .ok (decVal l : Int)
  else .error (.valueError "invalid literal for int")

/-- Field extraction of lines 430-431: split the file name on dashes, parse
field 1 as the restart step (`IndexError` when there is no field 1, as
Python's subscript raises), then strip apostrophes from field 0 to obtain the
restart name. -/
def parseFields (fileName : List Char) : Except PyError (Int × List Char) :=
  match pySplit '-' fileName with
  | f0 :: f1 :: _ =>
    (match pyIntParse f1 with
     | .error e => .error e
     | .ok n => .ok (n, pyReplaceApos f0))
  | _ => .error .indexError

/-- The restart-file handling of `__main__` (lines 427-433), applied to the
already-`ascii`-converted argument value: drop the directory part, then parse
the dash-separated fields. -/
def parseRestartFile (arg : List Char) : Except PyError (Int × List Char) :=
  parseFields (pyBasename arg)

/-- The raw command-line option values, before the `type=ascii` conversion;
`none` when the flag is absent. -/
structure CLIArgs where
  restart_file : Option (List Char)
  input_file : Option (List Char)
  casename : Option (List Char)

/-- The default case name `"flame1d"` of line 417, as characters. -/
def flame1dChars : List Char := ['f', 'l', 'a', 'm', 'e', '1', 'd']

/-- The case-name resolution of `__main__` (lines 417-422): when `-c` was
given, the `ascii`-converted value with every apostrophe removed; otherwise
the default. -/
def mainCasename (args : CLIArgs) : List Char :=
  match args.casename with
  | none => flame1dChars
  | some rawArg =>
    let a := pyAsciiQuote rawArg
    if a = [] then flame1dChars else pyReplaceApos a

/-- The input-file resolution of `__main__` (lines 437-446): when `-i` was
given, `input_file` is bound to the `ascii`-converted value with apostrophes
removed; otherwise the `else` branch only prints, `input_file` is never
bound, and the `run_flame(..., user_input_file=input_file, ...)` call at
line 445 raises `NameError`. -/
def mainInputFile (args : CLIArgs) : Except PyError (List Char) :=
  match args.input_file with
  | none => .error (.nameError "input_file")
  | some rawArg =>
    let a := pyAsciiQuote rawArg
    if a = [] then .error (.nameError "input_file") else .ok (pyReplaceApos a)

/-- The fixed suffix `.pkl` of the snapshot file-name pattern. -/
def pklChars : List Char := ['.', 'p', 'k', 'l']

/-! Helper lemmas about the Python string models. -/

theorem pyReplaceApos_no_apos (l : List Char) (h : '\'' ∉ l) : pyReplaceApos l = l :=
  List.filter_eq_self.mpr (fun c hc => by
    have hne : c ≠ '\'' := fun e => h (e ▸ hc)
    simpa using hne)

theorem pyReplaceApos_all_apos (l : List Char) (h : ∀ c ∈ l, c = '\'') :
    pyReplaceApos l = [] :=
  List.filter_eq_nil_iff.mpr (fun c hc => by simp [h c hc])

theorem pyReplaceApos_append (l1 l2 : List Char) :
    pyReplaceApos (l1 ++ l2) = pyReplaceApos l1 ++ pyReplaceApos l2 :=
  List.filter_append l1 l2

theorem not_mem_pyReplaceApos (l : List Char) : '\'' ∉ pyReplaceApos l := by
  intro h
  have := List.of_mem_filter h
  simp at this

theorem pyEscapeApos_no_apos (l : List Char) (h : '\'' ∉ l) : pyEscapeApos l = l := by
  induction l with
  | nil => rfl
  | cons c cs ih =>
    have hc : c ≠ '\'' := fun e => h (by simp [e])
    have hcs : '\'' ∉ cs := fun m => h (by simp [m])
    have ih2 := ih hcs
    simp only [pyEscapeApos, List.flatMap_cons] at ih2 ⊢
    simp [hc, ih2]

theorem pyAsciiQuote_no_apos (l : List Char) (h : '\'' ∉ l) :
    pyAsciiQuote l = '\'' :: l ++ ['\''] := by
  simp [pyAsciiQuote, h, pyEscapeApos_no_apos l h]

theorem pyBasename_no_slash (l : List Char) (h : '/' ∉ l) : pyBasename l = l := by
  cases l with
  | nil => rfl
  | cons c cs =>
    have hc : c ≠ '/' := fun e => h (by simp [e])
    have hcs : '/' ∉ cs := fun m => h (by simp [m])
    simp [pyBasename, hc, hcs]

theorem pyBasename_append (l1 l2 : List Char) :
    pyBasename (l1 ++ '/' :: l2) = pyBasename l2 := by
  induction l1 with
  | nil => simp [pyBasename]
  | cons c cs ih =>
    by_cases hc : c = '/'
    · simpa [pyBasename, hc] using ih
    · have hm : '/' ∈ cs ++ '/' :: l2 := by simp
      simpa [pyBasename, hc, hm] using ih

theorem pySplit_not_mem (sep : Char) (l : List Char) (h : sep ∉ l) :
    pySplit sep l = [l] := by
  induction l with
  | nil => rfl
  | cons c cs ih =>
    have hc : c ≠ sep := fun e => h (by simp [e])
    have hcs : sep ∉ cs := fun m => h (by simp [m])
    simp [pySplit, hc, ih hcs]

theorem pySplit_append_sep (sep : Char) (l1 l2 : List Char) (h : sep ∉ l1) :
    pySplit sep (l1 ++ sep :: l2) = l1 :: pySplit sep l2 := by
  induction l1 with
  | nil => simp [pySplit]
  | cons c cs ih =>
    have hc : c ≠ sep := fun e => h (by simp [e])
    have hcs : sep ∉ cs := fun m => h (by simp [m])
    have ih2 := ih hcs
    simp only [List.cons_append, pySplit, if_neg hc]
    rw [show cs.append (sep :: l2) = cs ++ sep :: l2 from rfl, ih2]

theorem isDigit_not_special (c : Char) (h : c.isDigit = true) :
    c ≠ '-' ∧ c ≠ '/' ∧ c ≠ '\'' := by
  refine ⟨fun e => ?_, fun e => ?_, fun e => ?_⟩ <;> subst e <;>
    exact absurd h (by decide)

theorem pyIntParse_digits (l : List Char) (h0 : l ≠ []) (hd : ∀ c ∈ l, c.isDigit = true) :
    pyIntParse l = .ok (decVal l : Int) := by
  unfold pyIntParse
  rw [if_pos ⟨h0, List.all_eq_true.mpr hd⟩]

/-! Concrete example data used by the witnesses. -/

/-- Example snapshot contents for a two-rank run. -/
def snapEx : SnapshotData :=
  { local_mesh := 1, local_mesh_nelements := 4, state := [FVal.finite 1],
    t := 2, step := 5, global_nelements := 8, num_parts := 2 }

/-- The context `processRestart 2 5 snapEx` reconstructs. -/
def ctxEx : LoadedCtx :=
  { local_mesh := 1, local_nelements := 4, global_nelements := 8, t := 2, step := 5,
    state := [FVal.finite 1] }

/-- The record a restart write at step 10 produces from `ctxEx`. -/
def recEx : RestartRecord :=
  { local_mesh := 1, state := [FVal.finite 1], t := 2, step := 10,
    global_nelements := 8, num_parts := 2 }

/-- Example checkpoint closure values. -/
def cctxEx : CheckpointCtx :=
  { casename := "flame1d", rank := 0, nrestart := 5, restart_step := 5,
    local_mesh := 1, global_nelements := 8, nparts := 2 }

/-- A supplied user configuration document whose values differ from the
hardcoded file's. -/
def userDocEx : YamlDoc :=
  [("nviz", 10), ("nrestart", 20), ("current_dt", 1), ("t_final", 2)]

/-- The document stored at the hardcoded path `run2_params.yaml`. -/
def run2DocEx : YamlDoc :=
  [("nviz", 3), ("nrestart", 7), ("current_dt", 4), ("t_final", 9)]

/-- A filesystem holding both the supplied file and `run2_params.yaml`. -/
def fsEx : String → Option YamlDoc := fun p =>
  if p = "custom.yaml" then some userDocEx
  else if p = "run2_params.yaml" then some run2DocEx
  else none

/-- Example inputs for the `restart_step = None` early exit. -/
def inpEx : RunInputs :=
  { casename := "flame1d", user_input_file := "", restart_step := none,
    restart_name := none, rank := 0, worldSize := 1 }

/-- Trivial external oracles. -/
def extEx : Externals :=
  { fs := fun _ => none, snapshot := none,
    advance := fun _ ctx => (ctx.step, ctx.t, ctx.state) }

/-! The claims. -/

/-- C1: the claim states that on a state with a non-finite value `my_rhs`
performs an emergency `sim_checkpoint` write with step marker 999999999 and
then terminates the process.  On the code as written this fails: the call at
line 333 references the unbound names `s0_sc` and `kappa_sc`, so evaluating
the call's arguments raises `NameError: name 's0_sc' is not defined` before
`sim_checkpoint` can run, and no emergency checkpoint is ever written. -/
theorem my_rhs_nonfinite_raises_name_error (rank : Nat) (t : ℚ) (state nsOut : StateV)
    (h : stateNonfinite state = true) :
    (my_rhs rank t state nsOut).2 = .error (.nameError "s0_sc") ∧
    ∀ s tt, Event.emergencyCheckpoint s tt ∉ (my_rhs rank t state nsOut).1 := by
  have hs : scopeHas "s0_sc" = false := by decide
  constructor
  · simp [my_rhs, h, hs]
  · intro s tt
    by_cases hr : rank = 0 <;> simp [my_rhs, h, hs, hr]

/-- Witness for C1 at the concrete non-finite state `[nan]`. -/
theorem my_rhs_nonfinite_raises_name_error_witness :
    stateNonfinite [FVal.nan] = true ∧
    (my_rhs 0 0 [FVal.nan] ([] : StateV)).2 = .error (.nameError "s0_sc") :=
  ⟨rfl, (my_rhs_nonfinite_raises_name_error 0 0 [FVal.nan] ([] : StateV) rfl).1⟩

/-- C2: `my_checkpoint(step, t, dt, state)` writes a restart snapshot record
if and only if `step` is a multiple of `nrestart` and `step` differs from the
step the run was restarted from. -/
theorem my_checkpoint_write_iff (c : CheckpointCtx) (step : Nat) (t dt : ℚ)
    (st : StateV) :
    (my_checkpoint c step t dt st).isSome = true ↔
      (c.nrestart ∣ (step : Int) ∧ step ≠ c.restart_step) := by
  by_cases hs : step = c.restart_step
  · simp [my_checkpoint, writeRestartGate, check_step, hs]
  · simp [my_checkpoint, writeRestartGate, check_step, hs,
      ← Int.dvd_iff_emod_eq_zero]

/-- C3: the claim states that the run parameters come from the supplied YAML
file.  On the code as written this fails: lines 135-136 re-open the hardcoded
path `run2_params.yaml` and overwrite `input_data`, so the values used are
those of `run2_params.yaml` (here 3, 7, 4, 9), not those of the supplied file
(here 10, 20, 1, 2). -/
theorem configParams_ignores_supplied_file :
    configParams "custom.yaml" fsEx
        = .ok { nviz := 3, nrestart := 7, current_dt := 4, t_final := 9 } ∧
    yamlGet userDocEx "nviz" = some 10 ∧
    ({ nviz := 3, nrestart := 7, current_dt := 4, t_final := 9 } : RunParams)
        ≠ { nviz := 10, nrestart := 20, current_dt := 1, t_final := 2 } := by
  refine ⟨rfl, rfl, by decide⟩

/-- C4: the restart loader fails with the line-277 assertion exactly when the
MPI world size differs from the persisted `num_parts`; when they agree the
restart proceeds. -/
theorem processRestart_assert_iff (ws rs : Nat) (snap : SnapshotData) :
    (processRestart ws rs snap = .error .assertionError ↔ ws ≠ snap.num_parts) ∧
    (ws = snap.num_parts → ∃ ctx, processRestart ws rs snap = .ok ctx) := by
  constructor
  · by_cases h : ws = snap.num_parts <;> simp [processRestart, h]
  · intro h
    refine ⟨{ local_mesh := snap.local_mesh, local_nelements := snap.local_mesh_nelements,
              global_nelements := snap.global_nelements, t := snap.t, step := rs,
              state := snap.state }, ?_⟩
    simp [processRestart, h]

/-- Witness for C4 at a matching world size. -/
theorem processRestart_assert_iff_witness :
    2 = snapEx.num_parts ∧ ∃ ctx, processRestart 2 7 snapEx = .ok ctx :=
  ⟨rfl, (processRestart_assert_iff 2 7 snapEx).2 rfl⟩

/-- C5: whenever the step loop exits with a final time strictly below
`t_final`, the epilogue of `run_flame` first performs the unconditional final
`my_checkpoint` call with the final step, time and state, and only afterwards
raises `ValueError("Simulation exited abnormally")`. -/
theorem epilogue_checkpoint_before_abnormal_error (c : CheckpointCtx) (fstep : Nat)
    (ft tf : ℚ) (fstate : StateV) (h : ft < tf) :
    (epilogue c fstep ft tf 0 fstate).2
        = .error (.valueError "Simulation exited abnormally") ∧
    (epilogue c fstep ft tf 0 fstate).1.head?
        = some (Event.checkpointCall fstep ft fstate) := by
  have h2 : ft - tf < 0 := by linarith
  constructor <;> simp [epilogue, h2]

/-- Witness for C5 at a concrete early-exit time. -/
theorem epilogue_checkpoint_before_abnormal_error_witness :
    (0 : ℚ) < 1 ∧
    (epilogue cctxEx 6 0 1 0 ([] : StateV)).2
        = .error (.valueError "Simulation exited abnormally") :=
  ⟨by norm_num,
   (epilogue_checkpoint_before_abnormal_error cctxEx 6 0 1 ([] : StateV)
     (by norm_num)).1⟩

/-- C6: with `restart_step = None`, `run_flame` exits right away: the trace
is at most one log message followed by the `exit()` call, with no snapshot
load, no discretization construction and no step loop. -/
theorem run_flame_restart_none_exits_immediately (inp : RunInputs) (ext : Externals)
    (h : inp.restart_step = none) :
    run_flame inp ext =
      ((if inp.rank = 0 then
          [Event.logInfo "Driver only supports restart, not initialization"]
        else []) ++ [Event.exitCall], .ok ()) ∧
    Event.makeDiscretization ∉ (run_flame inp ext).1 ∧
    Event.enterStepLoop ∉ (run_flame inp ext).1 ∧
    (∀ n s r, Event.openSnapshot n s r ∉ (run_flame inp ext).1) := by
  refine ⟨by simp [run_flame, h], ?_, ?_, fun n s r => ?_⟩ <;>
    by_cases hr : inp.rank = 0 <;> simp [run_flame, h, hr]

/-- Witness for C6 at concrete inputs. -/
theorem run_flame_restart_none_witness :
    run_flame inpEx extEx =
      ([Event.logInfo "Driver only supports restart, not initialization",
        Event.exitCall], .ok ()) := by
  have h := (run_flame_restart_none_exits_immediately inpEx extEx rfl).1
  simpa [inpEx] using h

/-- C7: for a snapshot whose `num_parts` matches the world size, the loader
restores exactly the persisted time and the file-name-derived restart step,
and any restart record written before the state or time change round-trips
`global_nelements`, `num_parts` and `t` back to the source snapshot's
values. -/
theorem restart_roundtrip (ws rs rnk : Nat) (snap : SnapshotData) (cname : String)
    (nr : Int) (step : Nat) (dt : ℚ) (ctx : LoadedCtx) (rec : RestartRecord)
    (hctx : processRestart ws rs snap = .ok ctx)
    (hrec : my_checkpoint
        { casename := cname, rank := rnk, nrestart := nr, restart_step := rs,
          local_mesh := ctx.local_mesh, global_nelements := ctx.global_nelements,
          nparts := ws } step ctx.t dt ctx.state = some rec) :
    ctx.t = snap.t ∧ ctx.step = rs ∧ rec.global_nelements = snap.global_nelements ∧
    rec.num_parts = snap.num_parts ∧ rec.t = snap.t := by
  unfold processRestart at hctx
  by_cases hw : ws = snap.num_parts
  · rw [if_pos hw] at hctx
    injection hctx with hctx
    subst hctx
    unfold my_checkpoint at hrec
    split at hrec
    · injection hrec with hrec
      subst hrec
      exact ⟨rfl, rfl, rfl, hw, rfl⟩
    · cases hrec
  · rw [if_neg hw] at hctx
    cases hctx

/-- Witness for C7 at a concrete matching snapshot and a step where the write
gate passes. -/
theorem restart_roundtrip_witness :
    processRestart 2 5 snapEx = .ok ctxEx ∧
    (ctxEx.t = snapEx.t ∧ ctxEx.step = 5 ∧
     recEx.global_nelements = snapEx.global_nelements ∧
     recEx.num_parts = snapEx.num_parts ∧ recEx.t = snapEx.t) :=
  ⟨rfl, restart_roundtrip 2 5 0 snapEx "flame1d" 5 10 0 ctxEx recEx rfl rfl⟩

/-- C8: the claim states that with no `-i` argument the program proceeds into
`run_flame` with the hardcoded defaults.  On the code as written this fails:
the `else` branch of lines 437-441 never binds `input_file`, so the
`run_flame` call at line 445 raises `NameError: name 'input_file' is not
defined`.  Had an empty `user_input_file` reached `run_flame`, the defaults
`nviz=5, nrestart=5, current_dt=5.0e-8, t_final=2.5e-7` would indeed have
been used, as the remaining conjuncts record. -/
theorem mainInputFile_none_raises_name_error (r c : Option (List Char))
    (fs : String → Option YamlDoc) :
    mainInputFile { restart_file := r, input_file := none, casename := c }
        = .error (.nameError "input_file") ∧
    configParams "" fs = .ok defaultParams ∧
    defaultParams =
      { nviz := 5, nrestart := 5, current_dt := 1 / 20000000,
        t_final := 1 / 4000000 } :=
  ⟨rfl, rfl, rfl⟩

/-- Field extraction succeeds on any dash-shaped name: an all-apostrophe
quoting residue `p` glued to the case name, then the step digits, then an
arbitrary tail. -/
theorem parseFields_shape (p cse s6 tail : List Char)
    (hp1 : '-' ∉ p) (hp2 : ∀ ch ∈ p, ch = '\'')
    (hcd : '-' ∉ cse) (hca : '\'' ∉ cse)
    (hs0 : s6 ≠ []) (hsd : ∀ ch ∈ s6, ch.isDigit = true) (hs6m : '-' ∉ s6) :
    parseFields ((p ++ cse) ++ ('-' :: (s6 ++ ('-' :: tail))))
      = .ok ((decVal s6 : Int), cse) := by
  have h1 : '-' ∉ p ++ cse := by simp [hp1, hcd]
  unfold parseFields
  rw [pySplit_append_sep _ _ _ h1, pySplit_append_sep _ _ _ hs6m]
  simp [pyIntParse_digits s6 hs0 hsd, pyReplaceApos_append,
    pyReplaceApos_all_apos p hp2, pyReplaceApos_no_apos cse hca]

/-- C9: for a `-r` argument whose base name has the form
`{casename}-{step:06d}-{rank:04d}.pkl` (a dash-free, quote-free case name, a
nonempty digit step field, digit rank field, optional directory part), the
CLI layer derives `restart_step` equal to the integer value of the step
field and `restart_name` equal to the case name, by splitting the file name
on dashes after the `type=ascii` conversion and `os.path.split`. -/
theorem restart_cli_parse (dir cse s6 r4 : List Char)
    (hdir : dir = [] ∨ ∃ d, dir = d ++ ['/'])
    (hdirA : '\'' ∉ dir)
    (hcd : '-' ∉ cse) (hca : '\'' ∉ cse) (hcs : '/' ∉ cse)
    (hs0 : s6 ≠ []) (hsd : ∀ ch ∈ s6, ch.isDigit = true)
    (hrd : ∀ ch ∈ r4, ch.isDigit = true) :
    parseRestartFile
        (pyAsciiQuote (dir ++ (cse ++ ('-' :: (s6 ++ ('-' :: (r4 ++ pklChars)))))))
      = .ok ((decVal s6 : Int), cse) := by
  have hs6m : '-' ∉ s6 := fun m => (isDigit_not_special _ (hsd _ m)).1 rfl
  have hs6s : '/' ∉ s6 := fun m => (isDigit_not_special _ (hsd _ m)).2.1 rfl
  have hs6a : '\'' ∉ s6 := fun m => (isDigit_not_special _ (hsd _ m)).2.2 rfl
  have hr4s : '/' ∉ r4 := fun m => (isDigit_not_special _ (hrd _ m)).2.1 rfl
  have hr4a : '\'' ∉ r4 := fun m => (isDigit_not_special _ (hrd _ m)).2.2 rfl
  have hrawA : '\'' ∉ dir ++ (cse ++ ('-' :: (s6 ++ ('-' :: (r4 ++ pklChars))))) := by
    simp [pklChars, hdirA, hca, hs6a, hr4a]
  rw [parseRestartFile, pyAsciiQuote_no_apos _ hrawA]
  rcases hdir with rfl | ⟨d, rfl⟩
  · have e : ('\'' :: ([] ++ (cse ++ ('-' :: (s6 ++ ('-' :: (r4 ++ pklChars))))))) ++ ['\'']
        = (['\''] ++ cse) ++ ('-' :: (s6 ++ ('-' :: (r4 ++ (pklChars ++ ['\'']))))) := by
      simp
    rw [e]
    have hns :
        '/' ∉ (['\''] ++ cse) ++ ('-' :: (s6 ++ ('-' :: (r4 ++ (pklChars ++ ['\'']))))) := by
      simp [pklChars, hcs, hs6s, hr4s]
    rw [pyBasename_no_slash _ hns]
    exact parseFields_shape ['\''] cse s6 (r4 ++ (pklChars ++ ['\'']))
      (by simp) (by simp) hcd hca hs0 hsd hs6m
  · have e1 :
        ('\'' :: ((d ++ ['/']) ++ (cse ++ ('-' :: (s6 ++ ('-' :: (r4 ++ pklChars))))))) ++ ['\'']
        = ('\'' :: d) ++ '/' ::
            ((([] : List Char) ++ cse) ++
              ('-' :: (s6 ++ ('-' :: (r4 ++ (pklChars ++ ['\''])))))) := by
      simp
    rw [e1, pyBasename_append]
    have hns :
        '/' ∉ (([] : List Char) ++ cse) ++
          ('-' :: (s6 ++ ('-' :: (r4 ++ (pklChars ++ ['\'']))))) := by
      simp [pklChars, hcs, hs6s, hr4s]
    rw [pyBasename_no_slash _ hns]
    exact parseFields_shape [] cse s6 (r4 ++ (pklChars ++ ['\'']))
      (by simp) (by simp) hcd hca hs0 hsd hs6m

/-- The `ascii`-converted `-r` argument `flame1d-000005-0000.pkl` used by
the witnesses. -/
def exRestartArg : List Char :=
  pyAsciiQuote (flame1dChars ++ ('-' :: (['0', '0', '0', '0', '0', '5'] ++
    ('-' :: (['0', '0', '0', '0'] ++ pklChars)))))

/-- Witness for C9 at the concrete file name `flame1d-000005-0000.pkl`. -/
theorem restart_cli_parse_witness :
    parseRestartFile exRestartArg = .ok ((5 : Int), flame1dChars) := by
  have h := restart_cli_parse [] flame1dChars ['0', '0', '0', '0', '0', '5']
    ['0', '0', '0', '0'] (Or.inl rfl) (by decide) (by decide) (by decide) (by decide)
    (by decide) (by decide) (by decide)
  have e : (decVal ['0', '0', '0', '0', '0', '5'] : Int) = 5 := by decide
  simpa [exRestartArg, e] using h

/-- The `argparse` result when only `-c` is supplied, with the given raw
value. -/
def casenameOnlyArgs (raw : List Char) : CLIArgs :=
  { restart_file := none, input_file := none, casename := some raw }

/-- C10: the case name used for output files is the `-c` argument after the
`type=ascii` conversion with every apostrophe removed from any position by
`replace` — not merely the surrounding quotes `ascii` adds — and the restart
name parsed from the `-r` file name gets the same stripping; a case name
with an interior apostrophe is therefore silently altered (here `don't`
becomes `"dont"`, double quotes included, because `ascii` renders a string
containing an apostrophe with double quotes). -/
theorem cli_apostrophe_stripping :
    (∀ raw, '\'' ∉ mainCasename (casenameOnlyArgs raw)) ∧
    (∀ arg n nm, parseRestartFile arg = .ok (n, nm) → '\'' ∉ nm) ∧
    mainCasename (casenameOnlyArgs ['d', 'o', 'n', '\'', 't'])
      = ['"', 'd', 'o', 'n', 't', '"'] ∧
    mainCasename (casenameOnlyArgs ['d', 'o', 'n', '\'', 't'])
      ≠ ['d', 'o', 'n', '\'', 't'] := by
  refine ⟨fun raw => ?_, fun arg n nm h => ?_, by decide, by decide⟩
  · by_cases he : pyAsciiQuote raw = []
    · simp [mainCasename, casenameOnlyArgs, he, flame1dChars]
    · simp [mainCasename, casenameOnlyArgs, he, not_mem_pyReplaceApos]
  · unfold parseRestartFile parseFields at h
    split at h
    · split at h
      · cases h
      · injection h with h2
        injection h2 with ha hb
        rw [← hb]
        exact not_mem_pyReplaceApos _
    · cases h

/-- Witness for C10: apostrophes are gone from a concrete converted case
name, and from the restart name parsed out of a concrete `-r` argument. -/
theorem cli_apostrophe_stripping_witness :
    '\'' ∉ mainCasename (casenameOnlyArgs ['a', '\'', 'b']) ∧
    '\'' ∉ flame1dChars :=
  ⟨cli_apostrophe_stripping.1 ['a', '\'', 'b'],
   cli_apostrophe_stripping.2.1 exRestartArg 5 flame1dChars (by rfl)⟩
